import Mathlib

/-!
# Verification of the East Group territory dashboard pipeline

Shallow embedding of `src/dashboard.py`: the data loading, geometry
decoding, filter application and aggregation pipeline, together with
proofs of the specified properties.

Tabular data is modelled as a Lean `List` of records (a pandas
`DataFrame` row sequence), numeric columns as `Int`, and decimal values
(coordinates, prices, averages) as `ℚ`.
-/

namespace Dashboard

/-- One loaded property row (a row of the `geo_df` GeoDataFrame built by
`load_data_from_db`, schema from the `territory_properties` table plus the
derived `lat`/`lon` columns of dashboard.py lines 66-67). -/
structure PropertyRecord where
  address : String
  city : String
  state : String
  zip_code : String
  square_footage : Int
  clear_height_ft : Int
  dock_doors : Int
  year_built : Int
  last_sale_price : Option ℚ
  current_lease_rate_psf : Option ℚ
  is_vacant : Bool
  wkt_coordinates : String
  lon : ℚ
  lat : ℚ
  deriving DecidableEq, Repr

/-- The three sidebar filter inputs of dashboard.py lines 88-111:
`selected_cities` (multiselect), the square-footage slider bounds
`(selected_sqft[0], selected_sqft[1])`, and `selected_height`
(multiselect). -/
structure FilterCriteria where
  selected_cities : List String
  sqft_lo : Int
  sqft_hi : Int
  selected_heights : List Int
  deriving DecidableEq, Repr

/-- The boolean mask of dashboard.py lines 115-117:
`geo_df['city'].isin(selected_cities) &
 geo_df['square_footage'].between(lo, hi) &
 geo_df['clear_height_ft'].isin(selected_height)`.
pandas `between` is inclusive on both bounds by default. -/
def rowMask (c : FilterCriteria) (r : PropertyRecord) : Bool :=
  c.selected_cities.contains r.city &&
  (c.sqft_lo ≤ r.square_footage && r.square_footage ≤ c.sqft_hi) &&
  c.selected_heights.contains r.clear_height_ft

/-- `filtered_df = geo_df[mask].copy()` (dashboard.py lines 114-118):
the rows of the table passing the mask, in their original order. -/
def filtered_df (geo_df : List PropertyRecord) (c : FilterCriteria) :
    List PropertyRecord :=
  geo_df.filter (rowMask c)

/-- The spec's retention predicate for the Filter Engine (spec section
4.3), stated with propositional membership and inclusive bounds; used to
compare the code's mask against the specified semantics. -/
def specRetained (c : FilterCriteria) (r : PropertyRecord) : Prop :=
  r.city ∈ c.selected_cities ∧
  (c.sqft_lo ≤ r.square_footage ∧ r.square_footage ≤ c.sqft_hi) ∧
  r.clear_height_ft ∈ c.selected_heights

instance (c : FilterCriteria) (r : PropertyRecord) :
    Decidable (specRetained c r) := by
  unfold specRetained; infer_instance

/-- The aggregator output (spec section 4.4): the three KPIs of
dashboard.py lines 128-132.  `average_square_footage = none` models the
"N/A" branch of line 132. -/
structure Metrics where
  count : Nat
  total_square_footage : Int
  average_square_footage : Option ℚ
  deriving DecidableEq, Repr

/-- pandas `Series.mean`: NaN on an empty series (modelled as `none`),
otherwise the exact sum divided by the length. -/
def seriesMean (xs : List Int) : Option ℚ :=
  if xs.length = 0 then none
  else some ((xs.sum : ℚ) / (xs.length : ℚ))

/-- `avg_sf = filtered_df['square_footage'].mean()` (dashboard.py
line 131). -/
def avg_sf (t : List PropertyRecord) : Option ℚ :=
  seriesMean (t.map (fun r => r.square_footage))

/-- The KPI block of dashboard.py lines 129-132:
count = `len(filtered_df)`, total = `filtered_df['square_footage'].sum()`,
average = `avg_sf` displayed only when `len(filtered_df) > 0`, else
"N/A" (`none`). -/
def summarize (t : List PropertyRecord) : Metrics :=
  { count := t.length
    total_square_footage := (t.map (fun r => r.square_footage)).sum
    average_square_footage := if t.length > 0 then avg_sf t else none }

/-- A sample record used by concrete witnesses. -/
def sampleRecord (sf : Int) : PropertyRecord :=
  { address := "100 Main St"
    city := "Austin"
    state := "TX"
    zip_code := "78701"
    square_footage := sf
    clear_height_ft := 32
    dock_doors := 10
    year_built := 2001
    last_sale_price := none
    current_lease_rate_psf := some 7
    is_vacant := false
    wkt_coordinates := "POINT(-97.7 30.3)"
    lon := -977/10
    lat := 303/10 }

/-!  ## Geometry decoder

The repository delegates well-known-text decoding to
`geopandas.GeoSeries.from_wkt` (dashboard.py line 61); the decoder itself
is not part of the repository's source.  It is modelled here from the
spec (section 4.1).
-/

/-- The geometry error taxonomy of spec sections 4.1 and 7. -/
inductive GeomError where
  | MalformedGeometry
  | UnsupportedGeometryType
  deriving DecidableEq, Repr

/-- The recognized well-known-text geometry type keywords other than
POINT. -/
def knownNonPointTypes : List String :=
  ["LINESTRING", "POLYGON", "MULTIPOINT", "MULTILINESTRING",
   "MULTIPOLYGON", "GEOMETRYCOLLECTION"]

/-- Value of a base-10 digit sequence, most significant first. -/
def digitsVal (ds : List Nat) : Nat := ds.foldl (fun a d => 10 * a + d) 0

/-- Numeric value of a decimal digit character. -/
def charToDigit (c : Char) : Nat := c.toNat - 48

/-- Step of `parseUNum` after the split into the leading digit run
`ipart` and the remainder `rest`. -/
def parseUNumAux (ipart rest : List Char) : Option ℚ :=
  match rest with
  | [] =>
    if ipart.isEmpty then none
    else some ((digitsVal (ipart.map charToDigit) : ℚ))
  | c :: fp =>
    if c = '.' then
      if ipart.isEmpty then none
      else if fp.isEmpty then none
      else if fp.all Char.isDigit then
        some ((digitsVal (ipart.map charToDigit) : ℚ) +
          (digitsVal (fp.map charToDigit) : ℚ) / (10 : ℚ) ^ fp.length)
      else none
    else none

/-- Modelled from the spec: parse an unsigned decimal numeral
(`digits` or `digits.digits`); `none` on any other input. -/
def parseUNum (cs : List Char) : Option ℚ :=
  parseUNumAux (cs.takeWhile Char.isDigit) (cs.dropWhile Char.isDigit)

/-- Modelled from the spec: parse a possibly negated decimal numeral. -/
def parseNum (cs : List Char) : Option ℚ :=
  if cs.head? = some '-' then (parseUNum cs.tail).map (fun v => -v)
  else parseUNum cs

/-- Character test: not an opening parenthesis. -/
def notOpenParen (c : Char) : Bool := c ≠ '('

/-- Character test: not a closing parenthesis. -/
def notCloseParen (c : Char) : Bool := c ≠ ')'

/-- Character test: not a space. -/
def notSpace (c : Char) : Bool := c ≠ ' '

/-- Step of `parsePointBody` after the split into the first token `t1`
and the remainder `rest`. -/
def parsePointBodyAux (t1 rest : List Char) : Except GeomError (ℚ × ℚ) :=
  match rest with
  | c :: t2 =>
    if c = ' ' then
      if t2.contains ' ' then Except.error GeomError.MalformedGeometry
      else
        match parseNum t1, parseNum t2 with
        | some x, some y => Except.ok (x, y)
        | _, _ => Except.error GeomError.MalformedGeometry
    else Except.error GeomError.MalformedGeometry
  | [] => Except.error GeomError.MalformedGeometry

/-- Modelled from the spec: parse the body between the parentheses of a
POINT literal — exactly two space-separated numeric tokens. -/
def parsePointBody (cs : List Char) : Except GeomError (ℚ × ℚ) :=
  parsePointBodyAux (cs.takeWhile notSpace) (cs.dropWhile notSpace)

/-- Step of the decoder after the split at the opening parenthesis:
`body` is what stands before the closing parenthesis, `after` what
remains from it. -/
def decodeParen (body after : List Char) : Except GeomError (ℚ × ℚ) :=
  match after with
  | [c] =>
    if c = ')' then parsePointBody body
    else Except.error GeomError.MalformedGeometry
  | _ => Except.error GeomError.MalformedGeometry

/-- Step of the decoder after the keyword has been read: `rest` must
open with a parenthesis and the keyword must be POINT. -/
def decodeAfterKw (kw : String) (rest : List Char) :
    Except GeomError (ℚ × ℚ) :=
  match rest with
  | c :: inner =>
    if c = '(' then
      if kw = "POINT" then
        decodeParen (inner.takeWhile notCloseParen)
          (inner.dropWhile notCloseParen)
      else Except.error GeomError.MalformedGeometry
    else Except.error GeomError.MalformedGeometry
  | [] => Except.error GeomError.MalformedGeometry

/-- Modelled from the spec: the geometry decoder of spec section 4.1.
Decodes the standard "POINT(x y)" well-known-text form to the pair
(x, y); any recognized non-point geometry keyword is
`UnsupportedGeometryType`; everything else failing the point grammar
(missing parens, non-numeric coordinates, wrong token count, empty
input) is `MalformedGeometry`. -/
def decodeWKT (s : String) : Except GeomError (ℚ × ℚ) :=
  if knownNonPointTypes.contains
      (String.mk (s.data.takeWhile notOpenParen)) then
    Except.error GeomError.UnsupportedGeometryType
  else
    decodeAfterKw (String.mk (s.data.takeWhile notOpenParen))
      (s.data.dropWhile notOpenParen)

/-- A decimal literal: sign, integer digits, optional fraction digits.
`DecLit.chars` prints it; the well-formed literals are the valid
coordinate tokens of the point grammar. -/
structure DecLit where
  neg : Bool
  ip : List Nat
  fp : List Nat
  deriving DecidableEq, Repr

/-- Well-formedness: a nonempty integer part, all digits below 10. -/
def DecLit.WF (d : DecLit) : Prop :=
  d.ip ≠ [] ∧ (∀ x ∈ d.ip, x < 10) ∧ (∀ x ∈ d.fp, x < 10)

instance (d : DecLit) : Decidable d.WF := by
  unfold DecLit.WF; infer_instance

/-- The magnitude of a decimal literal as an exact rational. -/
def DecLit.mag (d : DecLit) : ℚ :=
  (digitsVal d.ip : ℚ) +
    (if d.fp.isEmpty then 0
     else (digitsVal d.fp : ℚ) / (10 : ℚ) ^ d.fp.length)

/-- The signed value of a decimal literal. -/
def DecLit.val (d : DecLit) : ℚ := if d.neg then -d.mag else d.mag

/-- The unsigned character rendering of a decimal literal. -/
def DecLit.uchars (d : DecLit) : List Char :=
  d.ip.map Nat.digitChar ++
    (if d.fp.isEmpty then [] else '.' :: d.fp.map Nat.digitChar)

/-- The character rendering of a decimal literal. -/
def DecLit.chars (d : DecLit) : List Char :=
  (if d.neg then ['-'] else []) ++ d.uchars

/-- The trivial point encoder of spec section 8: renders
"POINT(x y)". -/
def encodePoint (a b : DecLit) : String :=
  String.mk (['P', 'O', 'I', 'N', 'T'] ++
    '(' :: ((a.chars ++ ' ' :: b.chars) ++ [')']))

/-!  ## Data loader (`load_data_from_db`, dashboard.py lines 36-74) -/

/-- One row returned by the store query
`SELECT *, ST_AsText(coordinates) as wkt_coordinates FROM
territory_properties` (dashboard.py lines 46-49). -/
structure RawRow where
  address : String
  city : String
  state : String
  zip_code : String
  square_footage : Int
  clear_height_ft : Int
  dock_doors : Int
  year_built : Int
  last_sale_price : Option ℚ
  current_lease_rate_psf : Option ℚ
  is_vacant : Bool
  wkt_coordinates : String
  deriving DecidableEq, Repr

/-- A sample store row with an unparseable geometry text, used by
concrete witnesses. -/
def badRow : RawRow :=
  { address := "200 Oak St"
    city := "Dallas"
    state := "TX"
    zip_code := "75201"
    square_footage := 2500
    clear_height_ft := 28
    dock_doors := 4
    year_built := 1995
    last_sale_price := some 1000000
    current_lease_rate_psf := none
    is_vacant := true
    wkt_coordinates := "oops" }

/-- The outcome of `pd.read_sql(query, db_engine)` (dashboard.py
line 52): either the returned rows, or a raised connection/query
exception with its message. -/
inductive QueryResult where
  | ok (rows : List RawRow)
  | failure (cause : String)
  deriving DecidableEq, Repr

/-- An exception raised inside the `try` block of `load_data_from_db`:
a database error from `pd.read_sql`, or a geometry error from the
wkt conversion / coordinate extraction (dashboard.py lines 60-67). -/
inductive PyExc where
  | dbError (cause : String)
  | geomError (e : GeomError)
  deriving DecidableEq, Repr

/-- The text of an exception, as interpolated into the `st.error`
message of dashboard.py line 73. -/
def excText : PyExc → String
  | PyExc.dbError cause => cause
  | PyExc.geomError GeomError.MalformedGeometry => "MalformedGeometry"
  | PyExc.geomError GeomError.UnsupportedGeometryType =>
      "UnsupportedGeometryType"

/-- A user-visible streamlit message: `st.warning` or `st.error`. -/
inductive Msg where
  | warning (text : String)
  | error (text : String)
  deriving DecidableEq, Repr

/-- What a call of `load_data_from_db` produces: the returned table
(the GeoDataFrame) and the user-visible messages it emitted. -/
structure LoadResult where
  table : List PropertyRecord
  messages : List Msg
  deriving DecidableEq, Repr

/-- The `st.warning` text of dashboard.py line 55. -/
def noDataText : String := "No data returned from the database."

/-- The `st.error` text of dashboard.py line 73, carrying the
underlying cause. -/
def loadErrorText (cause : String) : String :=
  "An error occurred while loading or processing data: " ++ cause

/-- Build one GeoDataFrame row: decode the row's wkt text and attach
x as `lon` and y as `lat` (dashboard.py lines 60-67). -/
def buildRecord (r : RawRow) : Except GeomError PropertyRecord :=
  match decodeWKT r.wkt_coordinates with
  | Except.ok p =>
    Except.ok
      { address := r.address, city := r.city, state := r.state,
        zip_code := r.zip_code, square_footage := r.square_footage,
        clear_height_ft := r.clear_height_ft, dock_doors := r.dock_doors,
        year_built := r.year_built, last_sale_price := r.last_sale_price,
        current_lease_rate_psf := r.current_lease_rate_psf,
        is_vacant := r.is_vacant, wkt_coordinates := r.wkt_coordinates,
        lon := p.1, lat := p.2 }
  | Except.error e => Except.error e

/-- Convert all rows (`geopandas.GeoSeries.from_wkt` over the whole
column, dashboard.py line 61): any failing row aborts the whole
conversion with its error — no row is silently dropped. -/
def decodeRows : List RawRow → Except GeomError (List PropertyRecord)
  | [] => Except.ok []
  | r :: rs =>
    match buildRecord r, decodeRows rs with
    | Except.ok p, Except.ok ps => Except.ok (p :: ps)
    | Except.error e, _ => Except.error e
    | Except.ok _, Except.error e => Except.error e

/-- The body of the `try` block of `load_data_from_db` (dashboard.py
lines 43-70): raises `PyExc` on a query or geometry failure, otherwise
returns the result (the empty-rows branch emits the `st.warning` of
line 55 and returns an empty GeoDataFrame). -/
def tryLoadBody (q : QueryResult) : Except PyExc LoadResult :=
  match q with
  | QueryResult.failure cause => Except.error (PyExc.dbError cause)
  | QueryResult.ok rows =>
    if rows.isEmpty then Except.ok ⟨[], [Msg.warning noDataText]⟩
    else
      match decodeRows rows with
      | Except.error e => Except.error (PyExc.geomError e)
      | Except.ok recs => Except.ok ⟨recs, []⟩

/-- `load_data_from_db` (dashboard.py lines 36-74): the `try` body with
the catch-all `except` of lines 72-74, which emits `st.error` with the
exception text and returns an empty GeoDataFrame. -/
def load_data_from_db (q : QueryResult) : LoadResult :=
  match tryLoadBody q with
  | Except.ok r => r
  | Except.error exc => ⟨[], [Msg.error (loadErrorText (excText exc))]⟩

/-- Dashboard.py lines 79-81: when the loaded table is empty the script
emits a warning and halts (`st.stop`) for that refresh cycle. -/
def dashboardHalts (r : LoadResult) : Bool := r.table.isEmpty

/-!  ## Cache (`@st.cache_data(ttl=600)`, dashboard.py line 35) -/

/-- The TTL of the `st.cache_data` decorator, dashboard.py line 35. -/
def cacheTTL : Nat := 600

/-- Modelled from the spec: the memoization state of
`st.cache_data(ttl=600)`, whose implementation is not in the
repository — a single optional cache entry {value, timestamp} (spec
sections 4.2 and 9) plus a count of store queries issued so far. -/
structure CacheState where
  entry : Option (LoadResult × Nat)
  storeQueries : Nat
  deriving DecidableEq, Repr

/-- Modelled from the spec: the cached accessor around
`load_data_from_db` — a call within `cacheTTL` seconds of the cached
entry's timestamp returns the cached value without querying the store;
otherwise a fresh load runs and replaces the entry wholesale. -/
def cachedLoad (q : QueryResult) (now : Nat) (s : CacheState) :
    LoadResult × CacheState :=
  match s.entry with
  | some (v, ts) =>
    if now - ts < cacheTTL then (v, s)
    else
      let r := load_data_from_db q
      (r, ⟨some (r, now), s.storeQueries + 1⟩)
  | none =>
    let r := load_data_from_db q
    (r, ⟨some (r, now), s.storeQueries + 1⟩)

/-!  ## Helper lemmas -/

lemma rowMask_eq_decide (c : FilterCriteria) (r : PropertyRecord) :
    rowMask c r = decide (specRetained c r) := by
  simp [rowMask, specRetained, List.contains, Bool.decide_and, Bool.and_assoc]

lemma takeWhile_all {α : Type} {p : α → Bool} {xs : List α}
    (h : ∀ x ∈ xs, p x = true) : xs.takeWhile p = xs := by
  induction xs with
  | nil => rfl
  | cons x xs ih =>
    rw [List.takeWhile_cons_of_pos (h x (List.mem_cons_self x xs))]
    rw [ih (fun z hz => h z (List.mem_cons_of_mem x hz))]

lemma dropWhile_all {α : Type} {p : α → Bool} {xs : List α}
    (h : ∀ x ∈ xs, p x = true) : xs.dropWhile p = [] := by
  induction xs with
  | nil => rfl
  | cons x xs ih =>
    rw [List.dropWhile_cons_of_pos (h x (List.mem_cons_self x xs))]
    exact ih (fun z hz => h z (List.mem_cons_of_mem x hz))

lemma takeWhile_app {α : Type} {p : α → Bool} {xs : List α} (ys : List α)
    {a : α} (h : ∀ x ∈ xs, p x = true) (ha : p a = false) :
    (xs ++ a :: ys).takeWhile p = xs := by
  rw [List.takeWhile_append_of_pos h,
    List.takeWhile_cons_of_neg (by rw [ha]; exact Bool.false_ne_true)]
  exact List.append_nil xs

lemma dropWhile_app {α : Type} {p : α → Bool} {xs : List α} (ys : List α)
    {a : α} (h : ∀ x ∈ xs, p x = true) (ha : p a = false) :
    (xs ++ a :: ys).dropWhile p = a :: ys := by
  rw [List.dropWhile_append_of_pos h,
    List.dropWhile_cons_of_neg (by rw [ha]; exact Bool.false_ne_true)]

lemma digitChar_isDigit {n : Nat} (h : n < 10) :
    (Nat.digitChar n).isDigit = true := by
  interval_cases n <;> decide

lemma charToDigit_digitChar {n : Nat} (h : n < 10) :
    charToDigit (Nat.digitChar n) = n := by
  interval_cases n <;> decide

lemma isDigit_ne {c d : Char} (hc : c.isDigit = true)
    (hd : d.isDigit = false) : c ≠ d := by
  intro h
  rw [h, hd] at hc
  exact Bool.false_ne_true hc

lemma map_charToDigit_digitChar {l : List Nat} (h : ∀ x ∈ l, x < 10) :
    (l.map Nat.digitChar).map charToDigit = l := by
  induction l with
  | nil => rfl
  | cons x xs ih =>
    simp only [List.map_cons]
    rw [charToDigit_digitChar (h x (List.mem_cons_self x xs))]
    rw [ih (fun z hz => h z (List.mem_cons_of_mem x hz))]

lemma mem_uchars {d : DecLit} (h : d.WF) {c : Char} (hc : c ∈ d.uchars) :
    c = '.' ∨ c.isDigit = true := by
  unfold DecLit.uchars at hc
  rcases List.mem_append.mp hc with h1 | h1
  · rcases List.mem_map.mp h1 with ⟨n, hn, rfl⟩
    exact Or.inr (digitChar_isDigit (h.2.1 n hn))
  · split at h1
    · exact absurd h1 (List.not_mem_nil c)
    · rcases List.mem_cons.mp h1 with rfl | h2
      · exact Or.inl rfl
      · rcases List.mem_map.mp h2 with ⟨n, hn, rfl⟩
        exact Or.inr (digitChar_isDigit (h.2.2 n hn))

lemma mem_chars {d : DecLit} (h : d.WF) {c : Char} (hc : c ∈ d.chars) :
    c = '-' ∨ c = '.' ∨ c.isDigit = true := by
  unfold DecLit.chars at hc
  rcases List.mem_append.mp hc with h1 | h1
  · left
    split at h1
    · rcases List.mem_cons.mp h1 with rfl | h2
      · rfl
      · exact absurd h2 (List.not_mem_nil c)
    · exact absurd h1 (List.not_mem_nil c)
  · rcases mem_uchars h h1 with h2 | h2
    · exact Or.inr (Or.inl h2)
    · exact Or.inr (Or.inr h2)

lemma chars_not_special {d : DecLit} (h : d.WF) {c : Char}
    (hc : c ∈ d.chars) : c ≠ '(' ∧ c ≠ ')' ∧ c ≠ ' ' := by
  rcases mem_chars h hc with rfl | rfl | h2
  · exact ⟨by decide, by decide, by decide⟩
  · exact ⟨by decide, by decide, by decide⟩
  · exact ⟨isDigit_ne h2 (by decide), isDigit_ne h2 (by decide),
      isDigit_ne h2 (by decide)⟩

lemma uchars_digits {d : DecLit} (h : d.WF) :
    ∀ c ∈ d.ip.map Nat.digitChar, c.isDigit = true := by
  intro c hc
  rcases List.mem_map.mp hc with ⟨n, hn, rfl⟩
  exact digitChar_isDigit (h.2.1 n hn)

lemma parseUNum_uchars {d : DecLit} (h : d.WF) :
    parseUNum d.uchars = some d.mag := by
  have hip : d.ip.map Nat.digitChar ≠ [] := by
    intro he
    exact h.1 (List.map_eq_nil_iff.mp he)
  by_cases hfp : d.fp = []
  · have hu : d.uchars = d.ip.map Nat.digitChar := by
      simp [DecLit.uchars, hfp]
    unfold parseUNum
    rw [hu, takeWhile_all (uchars_digits h), dropWhile_all (uchars_digits h)]
    simp only [parseUNumAux]
    rw [if_neg (by simpa [List.isEmpty_iff] using hip)]
    rw [map_charToDigit_digitChar h.2.1]
    simp [DecLit.mag, hfp]
  · have hfpe : d.fp.isEmpty = false := by
      simpa [List.isEmpty_iff] using hfp
    have hu : d.uchars =
        d.ip.map Nat.digitChar ++ '.' :: d.fp.map Nat.digitChar := by
      simp [DecLit.uchars, hfpe]
    unfold parseUNum
    rw [hu, takeWhile_app _ (uchars_digits h) (by decide),
      dropWhile_app _ (uchars_digits h) (by decide)]
    simp only [parseUNumAux, if_true]
    rw [if_neg (by simpa [List.isEmpty_iff] using hip)]
    rw [if_neg (by
      simp only [List.isEmpty_eq_true, List.map_eq_nil_iff]
      exact fun he => hfp he)]
    rw [if_pos (by
      rw [List.all_eq_true]
      intro c hc
      rcases List.mem_map.mp hc with ⟨n, hn, rfl⟩
      exact digitChar_isDigit (h.2.2 n hn))]
    rw [map_charToDigit_digitChar h.2.2, map_charToDigit_digitChar h.2.1]
    simp [DecLit.mag, hfpe, List.length_map]

lemma parseNum_chars {d : DecLit} (h : d.WF) :
    parseNum d.chars = some d.val := by
  cases hneg : d.neg
  · have hch : d.chars = d.uchars := by simp [DecLit.chars, hneg]
    have hhead : ¬ d.uchars.head? = some '-' := by
      cases hu : d.uchars with
      | nil => simp
      | cons c cs =>
        have hcm : c ∈ d.uchars := by
          rw [hu]; exact List.mem_cons_self c cs
        rcases mem_uchars h hcm with rfl | hdig
        · simp
        · have hne : c ≠ '-' := isDigit_ne hdig (by decide)
          simp [hne]
    unfold parseNum
    rw [hch, if_neg hhead, parseUNum_uchars h]
    simp [DecLit.val, hneg]
  · have hch : d.chars = '-' :: d.uchars := by simp [DecLit.chars, hneg]
    unfold parseNum
    rw [hch]
    rw [if_pos (by simp)]
    simp only [List.tail_cons]
    rw [parseUNum_uchars h]
    simp [DecLit.val, hneg]

lemma stringMk_data (s : String) : String.mk s.data = s := rfl

lemma decode_encodePoint {a b : DecLit} (ha : a.WF) (hb : b.WF) :
    decodeWKT (encodePoint a b) = Except.ok (a.val, b.val) := by
  have hdata : (encodePoint a b).data =
      ['P', 'O', 'I', 'N', 'T'] ++
        '(' :: ((a.chars ++ ' ' :: b.chars) ++ [')']) := rfl
  have hno : ∀ x ∈ (['P', 'O', 'I', 'N', 'T'] : List Char),
      notOpenParen x = true := by decide
  have hbody : ∀ x ∈ a.chars ++ ' ' :: b.chars, notCloseParen x = true := by
    intro x hx
    rcases List.mem_append.mp hx with h1 | h1
    · exact decide_eq_true (chars_not_special ha h1).2.1
    · rcases List.mem_cons.mp h1 with rfl | h2
      · decide
      · exact decide_eq_true (chars_not_special hb h2).2.1
  have hans : ∀ x ∈ a.chars, notSpace x = true := by
    intro x hx
    exact decide_eq_true (chars_not_special ha hx).2.2
  have hbc : ¬ b.chars.contains ' ' = true := by
    have hsp : ' ' ∉ b.chars := fun hm => (chars_not_special hb hm).2.2 rfl
    simp [List.contains, List.elem_eq_mem, hsp]
  unfold decodeWKT
  rw [hdata, takeWhile_app _ hno (by decide), dropWhile_app _ hno (by decide)]
  rw [if_neg (by decide)]
  simp only [decodeAfterKw, if_true]
  rw [takeWhile_app _ hbody (by decide), dropWhile_app _ hbody (by decide)]
  simp only [decodeParen, if_true]
  unfold parsePointBody
  rw [takeWhile_app _ hans (by decide), dropWhile_app _ hans (by decide)]
  simp only [parsePointBodyAux, if_true]
  rw [if_neg hbc]
  rw [parseNum_chars ha, parseNum_chars hb]

lemma decodeWKT_no_paren {s : String} (hpar : '(' ∉ s.data)
    (hks : s ∉ knownNonPointTypes) :
    decodeWKT s = Except.error GeomError.MalformedGeometry := by
  have hall : ∀ x ∈ s.data, notOpenParen x = true := by
    intro x hx
    exact decide_eq_true (fun he => hpar (he ▸ hx))
  unfold decodeWKT
  rw [takeWhile_all hall, dropWhile_all hall, stringMk_data]
  rw [if_neg (by
    intro hc
    exact hks (by simpa [List.contains, List.elem_eq_mem] using hc))]
  simp [decodeAfterKw]

lemma decodeWKT_unsupported {t : String} (rest : String)
    (hpar : '(' ∉ t.data) (ht : t ∈ knownNonPointTypes) :
    decodeWKT (t ++ "(" ++ rest) =
      Except.error GeomError.UnsupportedGeometryType := by
  have hdata : (t ++ "(" ++ rest).data = t.data ++ '(' :: rest.data := by
    simp
  have hall : ∀ x ∈ t.data, notOpenParen x = true := by
    intro x hx
    exact decide_eq_true (fun he => hpar (he ▸ hx))
  unfold decodeWKT
  rw [hdata, takeWhile_app _ hall (by decide), stringMk_data]
  rw [if_pos (by simp [List.contains, List.elem_eq_mem, ht])]

lemma decodeRows_error_of_mem {rows : List RawRow} {r : RawRow}
    {e : GeomError} (hmem : r ∈ rows)
    (hdec : decodeWKT r.wkt_coordinates = Except.error e) :
    ∃ e2, decodeRows rows = Except.error e2 := by
  induction rows with
  | nil => exact absurd hmem (List.not_mem_nil r)
  | cons x xs ih =>
    rcases List.mem_cons.mp hmem with rfl | hmem2
    · have hb : buildRecord r = Except.error e := by
        unfold buildRecord
        rw [hdec]
      cases hxs : decodeRows xs with
      | ok ps => exact ⟨e, by simp [decodeRows, hb, hxs]⟩
      | error e3 => exact ⟨e, by simp [decodeRows, hb, hxs]⟩
    · rcases ih hmem2 with ⟨e2, he2⟩
      cases hb : buildRecord x with
      | ok p => exact ⟨e2, by simp [decodeRows, hb, he2]⟩
      | error e3 => exact ⟨e3, by simp [decodeRows, hb]⟩

lemma load_table_empty_of_row_error {rows : List RawRow} {r : RawRow}
    {e : GeomError} (hmem : r ∈ rows)
    (hdec : decodeWKT r.wkt_coordinates = Except.error e) :
    (load_data_from_db (QueryResult.ok rows)).table = [] := by
  rcases decodeRows_error_of_mem hmem hdec with ⟨e2, he2⟩
  unfold load_data_from_db tryLoadBody
  cases hrows : rows.isEmpty
  · simp [hrows, he2]
  · simp [hrows]

/-!  ## Claim theorems -/

/-- C1: `filtered_df` returns exactly the subsequence of records of the
input table satisfying the conjunction of the three criteria (city
membership, inclusive square-footage bounds, clear-height membership),
preserving relative order; the input table is a value and is never
mutated. -/
theorem filter_apply_correct (t : List PropertyRecord) (c : FilterCriteria) :
    filtered_df t c = t.filter (fun r => decide (specRetained c r)) ∧
    List.Sublist (filtered_df t c) t := by
  constructor
  · unfold filtered_df
    apply List.filter_congr
    intro r _
    exact rowMask_eq_decide c r
  · exact List.filter_sublist t

/-- C2: with an empty selected-city set, `filtered_df` returns the empty
table for every (in particular every non-empty) input table, whatever
the square-footage range and height set are. -/
theorem filter_empty_cities (t : List PropertyRecord) (c : FilterCriteria)
    (hc : c.selected_cities = []) : filtered_df t c = [] := by
  unfold filtered_df
  apply List.filter_eq_nil_iff.mpr
  intro r _
  simp [rowMask, hc]

/-- Witness for C2 on a concrete one-record table. -/
theorem filter_empty_cities_witness :
    filtered_df [sampleRecord 1000]
      { selected_cities := [], sqft_lo := 0, sqft_hi := 10000,
        selected_heights := [32] } = [] :=
  filter_empty_cities [sampleRecord 1000]
    { selected_cities := [], sqft_lo := 0, sqft_hi := 10000,
      selected_heights := [32] } rfl

/-- C9: applying the same filter twice gives the same table as applying
it once. -/
theorem filter_idempotent (t : List PropertyRecord) (c : FilterCriteria) :
    filtered_df (filtered_df t c) c = filtered_df t c := by
  unfold filtered_df
  rw [List.filter_filter]
  apply List.filter_congr
  intro r _
  exact Bool.and_self (rowMask c r)

/-- C3: `summarize` returns the record count and the exact integer sum
of square footages; when the count is positive the average is the total
divided by the count, and when the count is zero the average is `none`
("N/A", never zero or NaN) with count 0 and total 0. -/
theorem summarize_correct (t : List PropertyRecord) :
    (summarize t).count = t.length ∧
    (summarize t).total_square_footage =
      (t.map (fun r => r.square_footage)).sum ∧
    (0 < t.length →
      (summarize t).average_square_footage =
        some (((summarize t).total_square_footage : ℚ) /
          ((summarize t).count : ℚ))) ∧
    (t.length = 0 →
      (summarize t).count = 0 ∧
      (summarize t).total_square_footage = 0 ∧
      (summarize t).average_square_footage = none) := by
  refine ⟨rfl, rfl, ?_, ?_⟩
  · intro h
    simp only [summarize, avg_sf, seriesMean, List.length_map]
    rw [if_pos h, if_neg (by omega)]
  · intro h
    have hnil : t = [] := List.length_eq_zero.mp h
    subst hnil
    exact ⟨rfl, rfl, rfl⟩

/-- Witness for C3: the spec's example table of 1000 and 3000 square
feet gives count 2, total 4000, average 2000; and the empty table gives
average "N/A". -/
theorem summarize_correct_witness :
    (summarize [sampleRecord 1000, sampleRecord 3000]).count = 2 ∧
    (summarize [sampleRecord 1000, sampleRecord 3000]).total_square_footage
      = 4000 ∧
    (summarize [sampleRecord 1000, sampleRecord 3000]).average_square_footage
      = some 2000 ∧
    (summarize ([] : List PropertyRecord)).average_square_footage = none := by
  have h := summarize_correct [sampleRecord 1000, sampleRecord 3000]
  have h0 := summarize_correct ([] : List PropertyRecord)
  refine ⟨rfl, rfl, ?_, (h0.2.2.2 rfl).2.2⟩
  rw [h.2.2.1 (by decide)]
  norm_num [summarize, sampleRecord]

/-- C4: decoding the rendering of any valid "POINT(x y)" well-known-text
string yields exactly the pair (x, y), and the loader attaches x as the
record's longitude and y as its latitude. -/
theorem wkt_point_round_trip (a b : DecLit) (ha : a.WF) (hb : b.WF) :
    decodeWKT (encodePoint a b) = Except.ok (a.val, b.val) ∧
    (∀ r : RawRow, r.wkt_coordinates = encodePoint a b →
      ∃ p : PropertyRecord, buildRecord r = Except.ok p ∧
        p.lon = a.val ∧ p.lat = b.val) := by
  refine ⟨decode_encodePoint ha hb, ?_⟩
  intro r hr
  have hbuild : buildRecord r = Except.ok
      { address := r.address, city := r.city, state := r.state,
        zip_code := r.zip_code, square_footage := r.square_footage,
        clear_height_ft := r.clear_height_ft, dock_doors := r.dock_doors,
        year_built := r.year_built, last_sale_price := r.last_sale_price,
        current_lease_rate_psf := r.current_lease_rate_psf,
        is_vacant := r.is_vacant, wkt_coordinates := r.wkt_coordinates,
        lon := a.val, lat := b.val } := by
    unfold buildRecord
    rw [hr, decode_encodePoint ha hb]
  exact ⟨_, hbuild, rfl, rfl⟩

/-- Witness for C4 at the concrete point (-97.7, 30.3). -/
theorem wkt_point_round_trip_witness :
    DecLit.WF ⟨true, [9, 7], [7]⟩ ∧ DecLit.WF ⟨false, [3, 0], [3]⟩ ∧
    decodeWKT "POINT(-97.7 30.3)" = Except.ok (-977/10, 303/10) := by
  have h := (wkt_point_round_trip ⟨true, [9, 7], [7]⟩ ⟨false, [3, 0], [3]⟩
    (by decide) (by decide)).1
  have henc : encodePoint ⟨true, [9, 7], [7]⟩ ⟨false, [3, 0], [3]⟩ =
      "POINT(-97.7 30.3)" := by decide
  rw [henc] at h
  refine ⟨by decide, by decide, ?_⟩
  rw [h]
  simp only [Except.ok.injEq, Prod.mk.injEq]
  constructor <;> norm_num [DecLit.val, DecLit.mag, digitsVal]

/-- C5: every input failing the point grammar (empty input, missing
parens, missing close paren, non-numeric coordinates, wrong token
count) decodes to `MalformedGeometry`; every recognized non-point
geometry keyword decodes to the distinct `UnsupportedGeometryType`; and
either failure on any row is fatal to that load cycle — the cycle's
resulting table is empty, no rows are silently dropped. -/
theorem wkt_error_cases :
    decodeWKT "" = Except.error GeomError.MalformedGeometry ∧
    (∀ s : String, '(' ∉ s.data → s ∉ knownNonPointTypes →
      decodeWKT s = Except.error GeomError.MalformedGeometry) ∧
    decodeWKT "POINT(30.3 -97.7" = Except.error GeomError.MalformedGeometry ∧
    decodeWKT "POINT(a b)" = Except.error GeomError.MalformedGeometry ∧
    decodeWKT "POINT(30.3)" = Except.error GeomError.MalformedGeometry ∧
    decodeWKT "POINT(1 2 3)" = Except.error GeomError.MalformedGeometry ∧
    (∀ t ∈ knownNonPointTypes, ∀ rest : String,
      decodeWKT (t ++ "(" ++ rest) =
        Except.error GeomError.UnsupportedGeometryType) ∧
    (∀ (rows : List RawRow) (r : RawRow) (e : GeomError), r ∈ rows →
      decodeWKT r.wkt_coordinates = Except.error e →
      (load_data_from_db (QueryResult.ok rows)).table = []) := by
  refine ⟨rfl, ?_, rfl, rfl, rfl, rfl, ?_, ?_⟩
  · exact fun s h1 h2 => decodeWKT_no_paren h1 h2
  · intro t ht rest
    fin_cases ht <;> exact decodeWKT_unsupported rest (by decide) (by decide)
  · exact fun rows r e hmem hdec => load_table_empty_of_row_error hmem hdec

/-- Witness for C5: a parenless non-keyword string is malformed, a
LINESTRING literal is unsupported, and one bad row empties the whole
load cycle. -/
theorem wkt_error_cases_witness :
    decodeWKT "FOO" = Except.error GeomError.MalformedGeometry ∧
    decodeWKT ("LINESTRING" ++ "(" ++ "0 0, 1 1)") =
      Except.error GeomError.UnsupportedGeometryType ∧
    (load_data_from_db (QueryResult.ok [badRow])).table = [] := by
  refine ⟨?_, ?_, ?_⟩
  · exact wkt_error_cases.2.1 "FOO" (by decide) (by decide)
  · exact wkt_error_cases.2.2.2.2.2.2.1 "LINESTRING" (by decide) "0 0, 1 1)"
  · exact wkt_error_cases.2.2.2.2.2.2.2 [badRow] badRow
      GeomError.MalformedGeometry (List.mem_cons_self badRow []) rfl

/-- C6: a store query or connection failure is caught: the load returns
with a user-visible error message carrying the underlying cause, the
returned table is empty (no stale or partial table is retained), and
the dashboard halts for that refresh cycle. -/
theorem load_failure_reported (cause : String) :
    load_data_from_db (QueryResult.failure cause) =
      ⟨[], [Msg.error (loadErrorText cause)]⟩ ∧
    dashboardHalts (load_data_from_db (QueryResult.failure cause)) = true :=
  ⟨rfl, rfl⟩

/-- C7: a query returning zero rows is not an error: the load returns
normally with an empty table and a `NoData` advisory warning whose
message is distinguishable from every failure cycle's error message. -/
theorem load_no_data_advisory :
    load_data_from_db (QueryResult.ok []) =
      ⟨[], [Msg.warning noDataText]⟩ ∧
    (∀ cause : String,
      (load_data_from_db (QueryResult.ok [])).messages ≠
        (load_data_from_db (QueryResult.failure cause)).messages) := by
  refine ⟨rfl, ?_⟩
  intro cause h
  simp [load_data_from_db, tryLoadBody] at h

/-- Witness for C7: the advisory differs from a concrete failure
cycle's message. -/
theorem load_no_data_advisory_witness :
    (load_data_from_db (QueryResult.ok [])).messages ≠
      (load_data_from_db (QueryResult.failure "connection refused")).messages :=
  load_no_data_advisory.2 "connection refused"

/-- C8: the result of the load is memoized with a 600-second TTL: the
first call queries the store and fills the cache; a second call within
the TTL window returns the identical value without another store query;
a call after expiry performs a fresh load and replaces the cache entry
wholesale with the new value and timestamp. -/
theorem cache_ttl_roundtrip (q q2 : QueryResult) (t0 t1 n : Nat) :
    cachedLoad q t0 ⟨none, n⟩ =
      (load_data_from_db q, ⟨some (load_data_from_db q, t0), n + 1⟩) ∧
    (t1 - t0 < cacheTTL →
      cachedLoad q2 t1 ⟨some (load_data_from_db q, t0), n + 1⟩ =
        (load_data_from_db q, ⟨some (load_data_from_db q, t0), n + 1⟩)) ∧
    (cacheTTL ≤ t1 - t0 →
      cachedLoad q2 t1 ⟨some (load_data_from_db q, t0), n + 1⟩ =
        (load_data_from_db q2, ⟨some (load_data_from_db q2, t1), n + 2⟩)) := by
  refine ⟨rfl, ?_, ?_⟩
  · intro h
    simp [cachedLoad, h]
  · intro h
    have h2 : ¬ t1 - t0 < cacheTTL := Nat.not_lt.mpr h
    simp [cachedLoad, h2]

/-- Witness for C8: a second call at 10 seconds hits the cache; a call
at 700 seconds refreshes it. -/
theorem cache_ttl_roundtrip_witness :
    (10 - 0 < cacheTTL ∧
      cachedLoad (QueryResult.ok []) 10
          ⟨some (load_data_from_db (QueryResult.ok []), 0), 1⟩ =
        (load_data_from_db (QueryResult.ok []),
         ⟨some (load_data_from_db (QueryResult.ok []), 0), 1⟩)) ∧
    (cacheTTL ≤ 700 - 0 ∧
      cachedLoad (QueryResult.ok []) 700
          ⟨some (load_data_from_db (QueryResult.ok []), 0), 1⟩ =
        (load_data_from_db (QueryResult.ok []),
         ⟨some (load_data_from_db (QueryResult.ok []), 700), 2⟩)) := by
  have h := cache_ttl_roundtrip (QueryResult.ok []) (QueryResult.ok []) 0 10 0
  have h7 := cache_ttl_roundtrip (QueryResult.ok []) (QueryResult.ok []) 0 700 0
  exact ⟨⟨by decide, h.2.1 (by decide)⟩, ⟨by decide, h7.2.2 (by decide)⟩⟩

/-- C10: `load_data_from_db` is total at its call boundary: every
execution returns — either the try body's result, or, for every
exception raised inside the try body, the caught empty-table result —
and a caller receives the same empty-table value for a failed load as
for a genuinely empty dataset. -/
theorem load_never_raises (q : QueryResult) :
    ((∃ r, tryLoadBody q = Except.ok r ∧ load_data_from_db q = r) ∨
     (∃ exc, tryLoadBody q = Except.error exc ∧
       load_data_from_db q =
         ⟨[], [Msg.error (loadErrorText (excText exc))]⟩)) ∧
    (∀ exc, tryLoadBody q = Except.error exc →
      (load_data_from_db q).table =
        (load_data_from_db (QueryResult.ok [])).table) := by
  constructor
  · cases hq : tryLoadBody q with
    | ok r => exact Or.inl ⟨r, rfl, by simp [load_data_from_db, hq]⟩
    | error exc => exact Or.inr ⟨exc, rfl, by simp [load_data_from_db, hq]⟩
  · intro exc hq
    have hL : load_data_from_db q =
        ⟨[], [Msg.error (loadErrorText (excText exc))]⟩ := by
      unfold load_data_from_db
      rw [hq]
    rw [hL]
    rfl

/-- Witness for C10: a failed load returns the same value as the
empty dataset. -/
theorem load_never_raises_witness :
    (load_data_from_db (QueryResult.failure "connection refused")).table =
      (load_data_from_db (QueryResult.ok [])).table :=
  (load_never_raises (QueryResult.failure "connection refused")).2
    (PyExc.dbError "connection refused") rfl

end Dashboard
